import Mathlib

/-!
Shallow embedding of the watch-status logic of the TV-show tracker
(`app/routers/shows.py`, `app/routers/users.py`, `app/models.py`,
`app/auth.py`).

Modelling conventions:
* The SQLite tables `show` and `watch` are lists of records inside a `Store`,
  together with the autoincrement counters for their primary keys.
* `datetime` values are abstract ticks (`Nat`); `datetime.utcnow()` is passed
  in explicitly as a `now` argument.
* A route handler is a function `Store → ... → Except Err Store` (or a read
  returning data).  Raising `HTTPException` before `session.commit()` leaves
  the database unchanged, which the `Except` result models: an `.error`
  outcome carries no new store.
* Two Python-level faults present in the source are modelled explicitly,
  because they are reachable:
  - `shows.py` `delete_show` calls `.delete()` on the result of
    `session.exec(select(Watch)...)`; a SQLAlchemy `ScalarResult` has no
    `delete` attribute, so the call raises `AttributeError`.
  - `shows.py` `watch_show` calls `Watch.watched_at.default_factory()` on the
    instrumented class attribute, which has no `default_factory`, so the
    re-watch branch raises `AttributeError` before committing.
  Both are modelled as the `Err.attributeError` outcome with the store
  unchanged.
* `SELECT ... .first()` is `List.find?`; `SELECT ... .all()` with a filter is
  `List.filter`; `session.delete(row)` on the row found by `.first()` removes
  the first matching element (`eraseFirst`); mutating the row found by
  `.first()` rewrites the first matching element (`updateFirst`).
-/

namespace TvTracker

/-- Record of the `show` table (`app/models.py`, class `Show`):
`id` integer primary key, `title` unique string, `created_at` timestamp. -/
structure TvShow where
  id : Nat
  title : String
  created_at : Nat
deriving Repr, DecidableEq

/-- Record of the `watch` table (`app/models.py`, class `Watch`):
`id` integer primary key, `user` username string, `show_id` reference to a
show, `rating` integer, `watched_at` timestamp. -/
structure Watch where
  id : Nat
  user : String
  show_id : Nat
  rating : Int
  watched_at : Nat
deriving Repr, DecidableEq

/-- The relational store: both tables plus the autoincrement counters that
hand out fresh primary keys on insert. -/
structure Store where
  shows : List TvShow
  watches : List Watch
  nextShowId : Nat
  nextWatchId : Nat
deriving Repr, DecidableEq

/-- Error outcomes of the route handlers.  The first six correspond to the
`HTTPException` raises in the source; `attributeError` models a Python
`AttributeError` escaping a handler (HTTP 500); `integrityError` models the
SQLite UNIQUE constraint on `show.title` (`Field(unique=True)`) rejecting a
commit. -/
inductive Err where
  | invalidRating
  | showNotFound
  | notWatched
  | duplicateTitle
  | notFound
  | userNotFound
  | attributeError
  | integrityError
deriving Repr, DecidableEq

/-- Rewrite the first element satisfying `p` by `f`, as mutating the row
returned by `.first()` does. -/
def updateFirst (p : α → Bool) (f : α → α) : List α → List α
  | [] => []
  | x :: xs => if p x then f x :: xs else x :: updateFirst p f xs

/-- Remove the first element satisfying `p`, as `session.delete` on the row
returned by `.first()` does. -/
def eraseFirst (p : α → Bool) : List α → List α
  | [] => []
  | x :: xs => if p x then xs else x :: eraseFirst p xs

/-- Static credential table (`app/auth.py`, `ALLOWED_USERS`). -/
def ALLOWED_USERS : List (String × String) :=
  [("ray", "password123"), ("dana", "secret")]

/-- Membership test of a username in the credential table, as the dict
membership `username not in ALLOWED_USERS` checks keys. -/
def isAllowedUser (username : String) : Bool :=
  ALLOWED_USERS.any (fun p => p.1 == username)

/-- Lookup used throughout the source for the watch row of one
`(user, show)` pair:
`select(Watch).where(Watch.show_id == show_id, Watch.user == user).first()`. -/
def findWatch (store : Store) (user : String) (show_id : Nat) : Option Watch :=
  store.watches.find? (fun w => w.show_id == show_id && w.user == user)

/-- Watched status, the lookup of `findWatch` projected to the data it
carries; this is what the spec calls `status_for(user, show_id)`. -/
def status_for (store : Store) (user : String) (show_id : Nat) :
    Option (Int × Nat) :=
  (findWatch store user show_id).map (fun w => (w.rating, w.watched_at))

/-- Join computed by `select(Show, Watch.rating, Watch.watched_at)
.join(Watch, Show.id == Watch.show_id).where(Watch.user == username)`
(`users.py` watched endpoint and `shows.py` watched filter): every pair of a
show and a watch row of `username` referencing it. -/
def watched_by (store : Store) (username : String) :
    List (TvShow × Int × Nat) :=
  store.shows.flatMap (fun s =>
    (store.watches.filter (fun w => w.show_id == s.id && w.user == username)).map
      (fun w => (s, w.rating, w.watched_at)))

/-- Set difference computed by `select(Show).where(~Show.id.in_(
select(Watch.show_id).where(Watch.user == username)))` (`users.py` unwatched
endpoint and `shows.py` unwatched filter): shows with no watch row of
`username`. -/
def unwatched_by (store : Store) (username : String) : List TvShow :=
  store.shows.filter (fun s =>
    !(store.watches.any (fun w => w.user == username && w.show_id == s.id)))

/-- POST `/shows/{show_id}/watch` (`shows.py`, `watch_show`).  Validates the
rating, then looks up the show, then upserts the watch row.  The update
branch evaluates `Watch.watched_at.default_factory()`, which raises
`AttributeError` on the instrumented attribute, so a re-watch fails before
`session.commit()` and the store is unchanged; only the insert branch
commits. -/
def watch_show (store : Store) (user : String) (show_id : Nat)
    (rating : Int) (now : Nat) : Except Err Store :=
  if ¬ (1 ≤ rating ∧ rating ≤ 5) then
    .error .invalidRating
  else
    match store.shows.find? (fun s => s.id == show_id) with
    | none => .error .showNotFound
    | some _ =>
      match findWatch store user show_id with
      | some _ => .error .attributeError
      | none =>
        .ok { store with
              watches := store.watches ++
                [⟨store.nextWatchId, user, show_id, rating, now⟩],
              nextWatchId := store.nextWatchId + 1 }

/-- DELETE `/shows/{show_id}/watch` (`shows.py`, `unwatch_show`).  Looks up
the show, then the watch row of the current user, deleting it if present and
failing with 404 otherwise. -/
def unwatch_show (store : Store) (user : String) (show_id : Nat) :
    Except Err Store :=
  match store.shows.find? (fun s => s.id == show_id) with
  | none => .error .showNotFound
  | some _ =>
    match findWatch store user show_id with
    | some _ =>
      .ok { store with
            watches := eraseFirst
              (fun w => w.show_id == show_id && w.user == user) store.watches }
    | none => .error .notWatched

/-- DELETE `/shows/{show_id}` (`shows.py`, `delete_show`).  Looks up the
show; then `session.exec(select(Watch).where(...)).delete()` raises
`AttributeError` (a `ScalarResult` has no `delete`), so the handler never
reaches `session.delete(show)` or `session.commit()` and the store is
unchanged. -/
def delete_show (store : Store) (show_id : Nat) : Except Err Store :=
  match store.shows.find? (fun s => s.id == show_id) with
  | none => .error .notFound
  | some _ => .error .attributeError

/-- POST `/shows/` (`shows.py`, `create_show`).  Rejects a duplicate title,
otherwise inserts a show with a fresh id. -/
def create_show (store : Store) (title : String) (now : Nat) :
    Except Err Store :=
  if (store.shows.find? (fun s => s.title == title)).isSome then
    .error .duplicateTitle
  else
    .ok { store with
          shows := store.shows ++ [⟨store.nextShowId, title, now⟩],
          nextShowId := store.nextShowId + 1 }

/-- PATCH `/shows/{show_id}` (`shows.py`, `update_show`).  Looks up the show;
runs the duplicate check only when the new title is truthy (non-empty) and
differs from the current one, mirroring `if show_data.title and
show_data.title != show.title`; then assigns the title whenever it is not
`None` and commits.  The commit is rejected by the UNIQUE constraint on
`show.title` when the assigned title collides with another row
(`integrityError`), which is reachable exactly when the truthiness check
skipped the duplicate check. -/
def update_show (store : Store) (show_id : Nat) (title? : Option String) :
    Except Err Store :=
  match store.shows.find? (fun s => s.id == show_id) with
  | none => .error .notFound
  | some sh =>
    match title? with
    | none => .ok store
    | some t =>
      if t ≠ "" ∧ t ≠ sh.title ∧
          (store.shows.find? (fun s => s.title == t)).isSome then
        .error .duplicateTitle
      else if t ≠ sh.title ∧
          store.shows.any (fun s => s.id != show_id && s.title == t) then
        .error .integrityError
      else
        .ok { store with
              shows := updateFirst (fun s => s.id == show_id)
                (fun s => { s with title := t }) store.shows }

/-- Response shape of `GET /users/{username}/watched`
(`app/schemas.py`, `WatchResponse`). -/
structure WatchResponse where
  id : Nat
  title : String
  rating : Int
  watched_at : Nat
deriving Repr, DecidableEq

/-- Response shape constructed by `GET /users/{username}/unwatched`
(`users.py` builds `UnwatchedShowResponse(id=..., title=...)`; the class
itself was dropped from `app/schemas.py`, breaking the import of
`app/routers/users.py`, but the constructed shape is `{id, title}`). -/
structure UnwatchedShowResponse where
  id : Nat
  title : String
deriving Repr, DecidableEq

/-- Response shape of the show endpoints (`app/schemas.py`, `ShowResponse`);
`rating` and `watched_at` default to `None` when a handler omits them. -/
structure ShowResponse where
  id : Nat
  title : String
  created_at : Nat
  watched : Bool
  rating : Option Int
  watched_at : Option Nat
deriving Repr, DecidableEq

/-- A SQLAlchemy `Row` as iterated by the joined queries: a sequence-like
wrapper holding the selected columns.  It is not a Python `tuple` (a `Row`
is tuple-like but not a `tuple` subclass). -/
structure Row (α : Type) where
  data : α
deriving Repr, DecidableEq

/-- Result of `isinstance(result, tuple)` on a SQLAlchemy `Row`: always
`false`, since `Row` does not subclass `tuple`. -/
def is_instance_tuple (_ : Row α) : Bool := false

/-- GET `/users/{username}/watched` (`users.py`, `get_user_watched_shows`).
Validates the username against `ALLOWED_USERS`, runs the join, then appends
a `WatchResponse` only for results passing `isinstance(result, tuple)` —
which no `Row` does, so every row is skipped and the body is always the
empty list. -/
def get_user_watched_shows (store : Store) (username : String) :
    Except Err (List WatchResponse) :=
  if !(isAllowedUser username) then
    .error .userNotFound
  else
    .ok (((watched_by store username).map Row.mk).foldl
      (fun acc r =>
        if is_instance_tuple r then
          acc ++ [⟨r.data.1.id, r.data.1.title, r.data.2.1, r.data.2.2⟩]
        else acc) [])

/-- GET `/users/{username}/unwatched` (`users.py`,
`get_user_unwatched_shows`).  Validates the username against
`ALLOWED_USERS`, then returns the set difference. -/
def get_user_unwatched_shows (store : Store) (username : String) :
    Except Err (List UnwatchedShowResponse) :=
  if !(isAllowedUser username) then
    .error .userNotFound
  else
    .ok ((unwatched_by store username).map (fun s => ⟨s.id, s.title⟩))

/-- Formatting of one joined result in the `watched=true` branch of
`list_shows` (`shows.py`).  `isinstance(result, tuple)` is `false` for a
`Row`, so the else branch runs and reads `result.id`, an attribute the
`Row` of `(Show, rating, watched_at)` does not have: `AttributeError`.
The then branch — dead code — would build the `ShowResponse` without
passing `watched_at`, leaving it `None`. -/
def formatWatchedRow (r : Row (TvShow × Int × Nat)) : Except Err ShowResponse :=
  if is_instance_tuple r then
    .ok ⟨r.data.1.id, r.data.1.title, r.data.1.created_at, true,
         some r.data.2.1, none⟩
  else .error .attributeError

/-- GET `/shows/` (`shows.py`, `list_shows`) with its three branches on the
`watched` query parameter.  The `watched=true` branch iterates the joined
rows through `formatWatchedRow`, stopping at the first raise; the
`watched=false` branch returns the set difference; the unfiltered branch
annotates every show with the status lookup of the current user, never
setting `watched_at`. -/
def list_shows (store : Store) (user : String) (watched : Option Bool) :
    Except Err (List ShowResponse) :=
  match watched with
  | some true => ((watched_by store user).map Row.mk).mapM formatWatchedRow
  | some false =>
    .ok ((unwatched_by store user).map
      (fun s => ⟨s.id, s.title, s.created_at, false, none, none⟩))
  | none =>
    .ok (store.shows.map (fun s =>
      match findWatch store user s.id with
      | some w => ⟨s.id, s.title, s.created_at, true, some w.rating, none⟩
      | none => ⟨s.id, s.title, s.created_at, false, none, none⟩))

/-- State reached by an HTTP call: the new store on success, the unchanged
store when the handler raised before committing. -/
def stateAfter (r : Except Err Store) (store : Store) : Store :=
  match r with
  | .ok s => s
  | .error _ => store

/-- One show-store operation of the kind claim C6 quantifies over. -/
inductive StoreOp where
  | create (title : String) (now : Nat)
  | rename (show_id : Nat) (title? : Option String)
deriving Repr, DecidableEq

/-- Apply one operation, keeping the store unchanged on error. -/
def applyOp (store : Store) : StoreOp → Store
  | .create t now => stateAfter (create_show store t now) store
  | .rename sid t? => stateAfter (update_show store sid t?) store

/-- Apply a sequence of operations. -/
def applyOps (store : Store) (ops : List StoreOp) : Store :=
  ops.foldl applyOp store

deriving instance DecidableEq for Except

/-- Concrete show used by the evaluation theorems. -/
def exShow : TvShow := ⟨1, "Foo", 0⟩

/-- Store holding one show and no watch rows. -/
def storeFresh : Store := ⟨[exShow], [], 2, 1⟩

/-- Store holding one show already watched by "ray" with rating 5 at tick
10. -/
def storeWatched : Store := ⟨[exShow], [⟨1, "ray", 1, 5, 10⟩], 2, 2⟩

/-- Elements of `updateFirst p f l` are elements of `l` or the image under
`f` of an element of `l` satisfying `p`. -/
theorem mem_updateFirst {p : α → Bool} {f : α → α} {l : List α} {b : α}
    (hb : b ∈ updateFirst p f l) :
    b ∈ l ∨ ∃ a, a ∈ l ∧ p a = true ∧ b = f a := by
  induction l with
  | nil => simp [updateFirst] at hb
  | cons x xs ih =>
    by_cases hx : p x
    · rw [updateFirst, if_pos hx] at hb
      rcases List.mem_cons.mp hb with hb | hb
      · exact Or.inr ⟨x, List.mem_cons_self x xs, hx, hb⟩
      · exact Or.inl (List.mem_cons_of_mem _ hb)
    · rw [updateFirst, if_neg hx] at hb
      rcases List.mem_cons.mp hb with hb | hb
      · exact Or.inl (hb ▸ List.mem_cons_self x xs)
      · rcases ih hb with hb | ⟨a, ha, hpa, hfa⟩
        · exact Or.inl (List.mem_cons_of_mem _ hb)
        · exact Or.inr ⟨a, List.mem_cons_of_mem _ ha, hpa, hfa⟩

/-- Erasing the first match from a list with no match before the appended
matching element removes exactly that element. -/
theorem eraseFirst_append_of_none {p : α → Bool} {l : List α} {a : α}
    (h : l.find? p = none) (ha : p a = true) :
    eraseFirst p (l ++ [a]) = l := by
  induction l with
  | nil => simp [eraseFirst, ha]
  | cons x xs ih =>
    by_cases hx : p x
    · simp [List.find?_cons_of_pos _ hx] at h
    · rw [List.find?_cons_of_neg _ hx] at h
      simpa [eraseFirst, hx] using ih h

/-- If at most one element matches `p`, nothing matching `p` survives
`eraseFirst p`. -/
theorem pred_false_of_mem_eraseFirst {p : α → Bool} {l : List α}
    (h : (l.filter p).length ≤ 1) :
    ∀ x ∈ eraseFirst p l, p x = false := by
  induction l with
  | nil => simp [eraseFirst]
  | cons y ys ih =>
    intro x hx
    by_cases hy : p y
    · rw [eraseFirst, if_pos hy] at hx
      have hnil : ys.filter p = [] := by
        rw [List.filter_cons_of_pos hy] at h
        exact List.length_eq_zero.mp (Nat.le_zero.mp (Nat.le_of_succ_le_succ h))
      have := List.filter_eq_nil_iff.mp hnil x hx
      exact Bool.not_eq_true _ ▸ eq_false_of_ne_true this
    · rw [eraseFirst, if_neg hy] at hx
      rcases List.mem_cons.mp hx with rfl | hx
      · exact eq_false_of_ne_true hy
      · rw [List.filter_cons_of_neg hy] at h
        exact ih h x hx

/-- C1: `mark_watched` on a show the user already watched is claimed to
overwrite the rating and refresh `watched_at`; in the code the update branch
evaluates `Watch.watched_at.default_factory()`, which raises
`AttributeError` before the commit, so a re-watch fails with a 500 and the
existing row keeps its old rating and `watched_at`.  Only the insert branch
behaves as claimed.  Evaluated here at the failing input: "ray" re-watches
show 1 with rating 4 at tick 99 and the old status `(5, 10)` is what
remains, while the same call on a store without a prior watch row inserts
normally. -/
theorem C1_mark_watched_rewatch_fault :
    watch_show storeWatched "ray" 1 4 99 = .error .attributeError ∧
    status_for storeWatched "ray" 1 = some (5, 10) ∧
    watch_show storeFresh "ray" 1 4 99 =
      .ok ⟨[exShow], [⟨1, "ray", 1, 4, 99⟩], 2, 2⟩ := by
  decide

/-- C2: `mark_unwatched` fails with `showNotFound` when the show does not
exist, fails with `notWatched` when the show exists but the user has no
watch row for it, and otherwise deletes the watch row of
`(user, show_id)` — it never silently succeeds on an unwatched show. -/
theorem C2_mark_unwatched_cases (store : Store) (user : String) (sid : Nat) :
    (store.shows.find? (fun s => s.id == sid) = none →
      unwatch_show store user sid = .error .showNotFound) ∧
    ((store.shows.find? (fun s => s.id == sid)).isSome →
      findWatch store user sid = none →
      unwatch_show store user sid = .error .notWatched) ∧
    ((store.shows.find? (fun s => s.id == sid)).isSome →
      (findWatch store user sid).isSome →
      unwatch_show store user sid =
        .ok { store with watches := eraseFirst (fun w => w.show_id == sid && w.user == user) store.watches }) := by
  refine ⟨fun h => ?_, fun h1 h2 => ?_, fun h1 h2 => ?_⟩
  · simp [unwatch_show, h]
  · rcases Option.isSome_iff_exists.mp h1 with ⟨sh, hsh⟩
    simp [unwatch_show, hsh, h2]
  · rcases Option.isSome_iff_exists.mp h1 with ⟨sh, hsh⟩
    rcases Option.isSome_iff_exists.mp h2 with ⟨w, hw⟩
    simp [unwatch_show, hsh, hw]

/-- C2 witness: the three cases evaluated on concrete stores: unknown show
id 9, show 1 not watched, show 1 watched by "ray". -/
theorem C2_mark_unwatched_cases_witness :
    unwatch_show storeFresh "ray" 9 = .error .showNotFound ∧
    unwatch_show storeFresh "ray" 1 = .error .notWatched ∧
    unwatch_show storeWatched "ray" 1 =
      .ok { storeWatched with watches := eraseFirst (fun w => w.show_id == 1 && w.user == "ray") storeWatched.watches } :=
  ⟨(C2_mark_unwatched_cases storeFresh "ray" 9).1 (by decide),
   (C2_mark_unwatched_cases storeFresh "ray" 1).2.1 (by decide) (by decide),
   (C2_mark_unwatched_cases storeWatched "ray" 1).2.2 (by decide) (by decide)⟩

/-- Membership in the watched join: a pair is listed exactly when its show
is in the store and some watch row of the user references it with that
rating and timestamp. -/
theorem mem_watched_by {store : Store} {username : String} {s : TvShow}
    {r : Int} {t : Nat} :
    (s, r, t) ∈ watched_by store username ↔
      s ∈ store.shows ∧ ∃ w ∈ store.watches,
        w.show_id = s.id ∧ w.user = username ∧ w.rating = r ∧ w.watched_at = t := by
  simp only [watched_by, List.mem_flatMap, List.mem_map, List.mem_filter,
    Bool.and_eq_true, beq_iff_eq, Prod.mk.injEq]
  constructor
  · rintro ⟨a, ha, w, ⟨hw, hwid, hwu⟩, rfl, rfl, rfl⟩
    exact ⟨ha, w, hw, hwid, hwu, rfl, rfl⟩
  · rintro ⟨hs, w, hw, hwid, hwu, rfl, rfl⟩
    exact ⟨s, hs, w, ⟨hw, hwid, hwu⟩, rfl, rfl, rfl⟩

/-- A failed watch-row predicate means the row is not the one of the
`(user, show)` pair. -/
theorem watch_pred_false {w : Watch} {user : String} {sid : Nat}
    (h : (w.show_id == sid && w.user == user) = false) :
    ¬(w.user = user ∧ w.show_id = sid) := by
  rintro ⟨hu, hid⟩
  simp [hu, hid] at h

/-- C3: a show in the store appears in the unwatched view of a user exactly
when the user has no watched status for it, and exactly when it appears in
no row of the watched join — the two views partition the shows. -/
theorem C3_unwatched_complement (store : Store) (user : String) (s : TvShow)
    (hs : s ∈ store.shows) :
    (s ∈ unwatched_by store user ↔ status_for store user s.id = none) ∧
    (s ∈ unwatched_by store user ↔
      ¬ ∃ r t, (s, r, t) ∈ watched_by store user) := by
  have hkey : s ∈ unwatched_by store user ↔
      ∀ w ∈ store.watches, ¬(w.user = user ∧ w.show_id = s.id) := by
    simp [unwatched_by, List.mem_filter, hs, List.any_eq_true,
      Bool.and_eq_true, beq_iff_eq]
  have hstat : status_for store user s.id = none ↔
      ∀ w ∈ store.watches, ¬(w.user = user ∧ w.show_id = s.id) := by
    simp only [status_for, findWatch, Option.map_eq_none', List.find?_eq_none,
      Bool.and_eq_true, beq_iff_eq, not_and]
    constructor
    · intro h w hw hu hid
      exact h w hw hid hu
    · intro h w hw hid hu
      exact h w hw hu hid
  have hwb : (∃ r t, (s, r, t) ∈ watched_by store user) ↔
      ∃ w ∈ store.watches, w.user = user ∧ w.show_id = s.id := by
    constructor
    · rintro ⟨r, t, h⟩
      rcases mem_watched_by.mp h with ⟨-, w, hw, hid, hu, -, -⟩
      exact ⟨w, hw, hu, hid⟩
    · rintro ⟨w, hw, hu, hid⟩
      exact ⟨w.rating, w.watched_at,
        mem_watched_by.mpr ⟨hs, w, hw, hid, hu, rfl, rfl⟩⟩
  refine ⟨hkey.trans hstat.symm, hkey.trans ?_⟩
  rw [hwb]
  simp

/-- C3 witness: the two equivalences evaluated for "ray" and show 1 on the
store where "ray" watched it. -/
theorem C3_unwatched_complement_witness :
    (exShow ∈ unwatched_by storeWatched "ray" ↔
      status_for storeWatched "ray" exShow.id = none) ∧
    (exShow ∈ unwatched_by storeWatched "ray" ↔
      ¬ ∃ r t, (exShow, r, t) ∈ watched_by storeWatched "ray") :=
  C3_unwatched_complement storeWatched "ray" exShow (by decide)

/-- C4: marking watched and then unwatched clears the watch state: on a
store holding the show and at most one watch row for the pair, the
unwatch call after the watch call succeeds and leaves the user with no
watched status and no watch row for that show.  This holds on both paths
of `watch_show`: the insert path adds the one row the unwatch then
removes, and the re-watch path fails (the `default_factory` fault) leaving
the single pre-existing row, which the unwatch removes. -/
theorem C4_watch_unwatch_roundtrip (store : Store) (user : String) (sid : Nat)
    (r : Int) (now : Nat)
    (hshow : (store.shows.find? (fun s => s.id == sid)).isSome)
    (hr : 1 ≤ r ∧ r ≤ 5)
    (hinv : (store.watches.filter (fun w => w.show_id == sid && w.user == user)).length ≤ 1) :
    ∃ s2, unwatch_show (stateAfter (watch_show store user sid r now) store) user sid = .ok s2 ∧
      status_for s2 user sid = none ∧
      ∀ w ∈ s2.watches, ¬(w.user = user ∧ w.show_id = sid) := by
  rcases Option.isSome_iff_exists.mp hshow with ⟨sh, hsh⟩
  cases hfw : findWatch store user sid with
  | some w0 =>
    have hws : watch_show store user sid r now = .error .attributeError := by
      rw [watch_show, if_neg (not_not_intro hr), hsh, hfw]
    refine ⟨{ store with watches := eraseFirst (fun w => w.show_id == sid && w.user == user) store.watches }, ?_, ?_, ?_⟩
    · rw [hws]
      simp [stateAfter, unwatch_show, hsh, hfw]
    · simp only [status_for, findWatch, Option.map_eq_none', List.find?_eq_none]
      intro x hx
      simp [pred_false_of_mem_eraseFirst hinv x hx]
    · intro w hw
      exact watch_pred_false (pred_false_of_mem_eraseFirst hinv w hw)
  | none =>
    have hws : watch_show store user sid r now =
        .ok { store with
              watches := store.watches ++ [⟨store.nextWatchId, user, sid, r, now⟩],
              nextWatchId := store.nextWatchId + 1 } := by
      rw [watch_show, if_neg (not_not_intro hr), hsh, hfw]
    have hnone : store.watches.find? (fun w => w.show_id == sid && w.user == user) = none := hfw
    have hpnw : (fun w => w.show_id == sid && w.user == user)
        (⟨store.nextWatchId, user, sid, r, now⟩ : Watch) = true := by simp
    have hfind1 : (store.watches ++ [(⟨store.nextWatchId, user, sid, r, now⟩ : Watch)]).find?
        (fun w => w.show_id == sid && w.user == user) =
        some ⟨store.nextWatchId, user, sid, r, now⟩ := by
      rw [List.find?_append, hnone]
      simp
    refine ⟨{ store with nextWatchId := store.nextWatchId + 1 }, ?_, ?_, ?_⟩
    · rw [hws]
      simp only [stateAfter, unwatch_show, findWatch, hsh, hfind1]
      rw [eraseFirst_append_of_none hnone hpnw]
    · simp only [status_for, findWatch, Option.map_eq_none']
      exact hnone
    · intro w hw
      have := List.find?_eq_none.mp hnone w hw
      exact watch_pred_false (eq_false_of_ne_true this)

/-- C4 witness: the round trip evaluated for "ray" on show 1 with rating 4,
starting from the store where "ray" already watched it. -/
theorem C4_watch_unwatch_roundtrip_witness :
    ∃ s2, unwatch_show (stateAfter (watch_show storeWatched "ray" 1 4 99) storeWatched) "ray" 1 = .ok s2 ∧
      status_for s2 "ray" 1 = none ∧
      ∀ w ∈ s2.watches, ¬(w.user = "ray" ∧ w.show_id = 1) :=
  C4_watch_unwatch_roundtrip storeWatched "ray" 1 4 99
    (by decide) (by decide) (by decide)

/-- C5: deleting an existing show is claimed to purge all its watch rows and
then delete the show; in the code
`session.exec(select(Watch).where(...)).delete()` raises `AttributeError`
(a `ScalarResult` has no `delete`), so the delete of an existing show always
fails with a 500, no watch row is purged and the show survives.  The 404 on
a missing show is reached as claimed.  Evaluated at the failing input: show
1 with one watch row referencing it. -/
theorem C5_delete_show_fault :
    delete_show storeWatched 1 = .error .attributeError ∧
    storeWatched.watches ≠ [] ∧
    delete_show storeWatched 99 = .error .notFound := by
  decide

/-- Store holding two shows with the distinct titles "x" and the empty
string, the input on which the truthiness check of `update_show` skips the
duplicate check. -/
def storeTitles : Store := ⟨[⟨1, "x", 0⟩, ⟨2, "", 0⟩], [], 3, 1⟩

/-- Store holding two shows titled "x" and "y". -/
def storeTwoTitles : Store := ⟨[⟨1, "x", 0⟩, ⟨2, "y", 0⟩], [], 3, 1⟩

/-- Well-formedness maintained by the autoincrement primary key of the
`show` table: distinct ids below the counter, plus the title-distinctness
invariant under scrutiny. -/
def StoreWF (store : Store) : Prop :=
  store.shows.Pairwise (fun a b => a.id ≠ b.id) ∧
  (∀ s ∈ store.shows, s.id < store.nextShowId) ∧
  store.shows.Pairwise (fun a b => a.title ≠ b.title)

/-- Retitling the first show with a given id keeps titles pairwise distinct
provided every show with a different id avoids the new title. -/
theorem updateFirst_title_pairwise {l : List TvShow} {sid : Nat} {t : String}
    (hids : l.Pairwise (fun a b => a.id ≠ b.id))
    (ht : l.Pairwise (fun a b => a.title ≠ b.title))
    (hother : ∀ s ∈ l, s.id ≠ sid → s.title ≠ t) :
    (updateFirst (fun s => s.id == sid) (fun s => { s with title := t }) l).Pairwise
      (fun a b => a.title ≠ b.title) := by
  induction l with
  | nil => simp [updateFirst]
  | cons x xs ih =>
    rcases List.pairwise_cons.mp hids with ⟨hidx, hids2⟩
    rcases List.pairwise_cons.mp ht with ⟨htx, ht2⟩
    by_cases hx : x.id = sid
    · rw [updateFirst, if_pos (by simpa using hx)]
      refine List.pairwise_cons.mpr ⟨?_, ht2⟩
      intro b hb
      have hbid : b.id ≠ sid := fun he => hidx b hb (hx.trans he.symm)
      have hbt := hother b (List.mem_cons_of_mem _ hb) hbid
      show t ≠ b.title
      exact fun he => hbt he.symm
    · rw [updateFirst, if_neg (by simpa using hx)]
      refine List.pairwise_cons.mpr
        ⟨?_, ih hids2 ht2 (fun s hsm hsid => hother s (List.mem_cons_of_mem _ hsm) hsid)⟩
      intro b hb
      rcases mem_updateFirst hb with hb2 | ⟨a, _, _, rfl⟩
      · exact htx b hb2
      · show x.title ≠ t
        exact hother x (List.mem_cons_self x xs) hx

/-- Retitling the first show with a given id keeps ids pairwise distinct. -/
theorem updateFirst_id_pairwise {l : List TvShow} {sid : Nat} {t : String}
    (hids : l.Pairwise (fun a b => a.id ≠ b.id)) :
    (updateFirst (fun s => s.id == sid) (fun s => { s with title := t }) l).Pairwise
      (fun a b => a.id ≠ b.id) := by
  induction l with
  | nil => simp [updateFirst]
  | cons x xs ih =>
    rcases List.pairwise_cons.mp hids with ⟨hidx, hids2⟩
    by_cases hx : x.id = sid
    · rw [updateFirst, if_pos (by simpa using hx)]
      exact List.pairwise_cons.mpr ⟨fun b hb => hidx b hb, hids2⟩
    · rw [updateFirst, if_neg (by simpa using hx)]
      refine List.pairwise_cons.mpr ⟨?_, ih hids2⟩
      intro b hb
      rcases mem_updateFirst hb with hb2 | ⟨a, ha, _, rfl⟩
      · exact hidx b hb2
      · show x.id ≠ a.id
        exact hidx a ha

/-- Every show-store operation preserves well-formedness, title
distinctness included: the duplicate check guards inserts, and any rename
that would collide is stopped either by the duplicate check or by the
UNIQUE constraint at commit. -/
theorem applyOp_WF {store : Store} (h : StoreWF store) (op : StoreOp) :
    StoreWF (applyOp store op) := by
  obtain ⟨hids, hbound, ht⟩ := h
  cases op with
  | create t now =>
    by_cases hdup : (store.shows.find? (fun s => s.title == t)).isSome
    · simp only [applyOp, create_show, hdup, if_true, stateAfter]
      exact ⟨hids, hbound, ht⟩
    · have hnone : store.shows.find? (fun s => s.title == t) = none :=
        Option.not_isSome_iff_eq_none.mp hdup
      simp only [applyOp, create_show, hnone, Option.isSome_none,
        Bool.false_eq_true, if_false, stateAfter]
      refine ⟨?_, ?_, ?_⟩
      · rw [List.pairwise_append]
        refine ⟨hids, by simp, ?_⟩
        intro a ha b hb
        simp only [List.mem_singleton] at hb
        subst hb
        exact Nat.ne_of_lt (hbound a ha)
      · intro s hsm
        rcases List.mem_append.mp hsm with h1 | h1
        · exact Nat.lt_succ_of_lt (hbound s h1)
        · simp only [List.mem_singleton] at h1
          subst h1
          exact Nat.lt_succ_self _
      · rw [List.pairwise_append]
        refine ⟨ht, by simp, ?_⟩
        intro a ha b hb
        simp only [List.mem_singleton] at hb
        subst hb
        show a.title ≠ t
        have := List.find?_eq_none.mp hnone a ha
        simpa using this
  | rename sid t? =>
    cases hfind : store.shows.find? (fun s => s.id == sid) with
    | none =>
      simp only [applyOp, update_show, hfind, stateAfter]
      exact ⟨hids, hbound, ht⟩
    | some sh =>
      cases t? with
      | none =>
        simp only [applyOp, update_show, hfind, stateAfter]
        exact ⟨hids, hbound, ht⟩
      | some t =>
        simp only [applyOp, update_show, hfind]
        by_cases hdup : t ≠ "" ∧ t ≠ sh.title ∧
            (store.shows.find? (fun s => s.title == t)).isSome
        · rw [if_pos hdup]
          exact ⟨hids, hbound, ht⟩
        · rw [if_neg hdup]
          by_cases hint : t ≠ sh.title ∧
              store.shows.any (fun s => s.id != sid && s.title == t) = true
          · rw [if_pos hint]
            exact ⟨hids, hbound, ht⟩
          · rw [if_neg hint]
            have hother : ∀ s ∈ store.shows, s.id ≠ sid → s.title ≠ t := by
              by_cases hts : t = sh.title
              · subst hts
                intro s hsm hsid
                have hshmem := List.mem_of_find?_eq_some hfind
                have hshid : sh.id = sid := by simpa using List.find?_some hfind
                have hneq : s ≠ sh := fun he => hsid (he ▸ hshid)
                exact List.Pairwise.forall (fun _ _ hab => hab.symm) ht hsm hshmem hneq
              · push_neg at hint
                have hany := hint hts
                intro s hsm hsid hteq
                apply hany
                rw [List.any_eq_true]
                exact ⟨s, hsm, by simp [hsid, hteq]⟩
            refine ⟨updateFirst_id_pairwise hids, ?_,
              updateFirst_title_pairwise hids ht hother⟩
            intro s hsm
            rcases mem_updateFirst hsm with h1 | ⟨a, ha, _, rfl⟩
            · exact hbound s h1
            · exact hbound a ha

/-- Well-formedness is preserved by any operation sequence. -/
theorem applyOps_WF {store : Store} (h : StoreWF store) (ops : List StoreOp) :
    StoreWF (applyOps store ops) := by
  induction ops generalizing store with
  | nil => exact h
  | cons op rest ih => exact ih (applyOp_WF h op)

/-- C6 counterexample: renaming show 1 of `storeTitles` to the empty
string, which is the title of show 2 and differs from the current title
"x", does not fail with `duplicateTitle` as the claim states — the Python
truthiness check `if show_data.title and ...` skips the duplicate check for
the empty string and the collision surfaces as the UNIQUE-constraint
`integrityError` instead. -/
theorem C6_rename_empty_title_counterexample :
    storeTitles.shows.find? (fun s => s.id == 1) = some ⟨1, "x", 0⟩ ∧
    ("" : String) ≠ "x" ∧
    (∃ s ∈ storeTitles.shows, s.id ≠ 1 ∧ s.title = "") ∧
    update_show storeTitles 1 (some "") ≠ .error .duplicateTitle ∧
    update_show storeTitles 1 (some "") = .error .integrityError := by
  decide

/-- C6 amended: starting from pairwise-distinct titles (with the
well-formed autoincrement ids the store maintains), any sequence of create
and rename operations keeps titles pairwise distinct; create fails with
`duplicateTitle` when the title already exists, and rename fails with
`duplicateTitle` when the new title is non-empty, differs from the current
title, and already exists — a rename to the empty string bypasses the
duplicate check and is rejected at commit as `integrityError` instead. -/
theorem C6_title_uniqueness_amended (store : Store) (ops : List StoreOp)
    (t1 : String) (now1 : Nat) (sid : Nat) (t2 : String) (sh : TvShow)
    (hids : store.shows.Pairwise (fun a b => a.id ≠ b.id))
    (hbound : ∀ s ∈ store.shows, s.id < store.nextShowId)
    (ht : store.shows.Pairwise (fun a b => a.title ≠ b.title))
    (hdup1 : ∃ s ∈ store.shows, s.title = t1)
    (hfind : store.shows.find? (fun s => s.id == sid) = some sh)
    (ht2ne : t2 ≠ "") (ht2cur : t2 ≠ sh.title)
    (hdup2 : ∃ s ∈ store.shows, s.title = t2) :
    (applyOps store ops).shows.Pairwise (fun a b => a.title ≠ b.title) ∧
    create_show store t1 now1 = .error .duplicateTitle ∧
    update_show store sid (some t2) = .error .duplicateTitle := by
  refine ⟨(applyOps_WF ⟨hids, hbound, ht⟩ ops).2.2, ?_, ?_⟩
  · have hisome : (store.shows.find? (fun s => s.title == t1)).isSome := by
      rw [List.find?_isSome]
      rcases hdup1 with ⟨s, hsm, hst⟩
      exact ⟨s, hsm, by simp [hst]⟩
    simp [create_show, hisome]
  · have hisome : (store.shows.find? (fun s => s.title == t2)).isSome := by
      rw [List.find?_isSome]
      rcases hdup2 with ⟨s, hsm, hst⟩
      exact ⟨s, hsm, by simp [hst]⟩
    simp only [update_show, hfind]
    rw [if_pos ⟨ht2ne, ht2cur, hisome⟩]

/-- C6 witness: on the store titled "x", "y" the sequence create "z",
rename 1 to "w", rename 2 to "x" ends with pairwise-distinct titles, while
creating another "x" and renaming show 1 to "y" both answer
`duplicateTitle`. -/
theorem C6_title_uniqueness_amended_witness :
    (applyOps storeTwoTitles
      [StoreOp.create "z" 7, StoreOp.rename 1 (some "w"),
       StoreOp.rename 2 (some "x")]).shows.Pairwise
        (fun a b => a.title ≠ b.title) ∧
    create_show storeTwoTitles "x" 5 = .error .duplicateTitle ∧
    update_show storeTwoTitles 1 (some "y") = .error .duplicateTitle :=
  C6_title_uniqueness_amended storeTwoTitles
    [StoreOp.create "z" 7, StoreOp.rename 1 (some "w"),
     StoreOp.rename 2 (some "x")]
    "x" 5 1 "y" ⟨1, "x", 0⟩
    (by decide) (by decide) (by decide) (by decide) (by decide)
    (by decide) (by decide) (by decide)

/-- C8: the user endpoints answer `userNotFound` for usernames outside the
static credential table and succeed for known usernames, but the watched
endpoint always returns an empty list — `isinstance(result, tuple)` is
false for every SQLAlchemy `Row`, so each joined row is skipped — even
though the join itself is non-empty; the unwatched endpoint returns its
data as claimed.  Evaluated at the failing input: "ray" with one watch
row, plus the unknown username "bob" and the watch-free known user
"dana". -/
theorem C8_user_endpoints_fault :
    get_user_watched_shows storeWatched "ray" = .ok [] ∧
    watched_by storeWatched "ray" = [(exShow, 5, 10)] ∧
    get_user_watched_shows storeWatched "bob" = .error .userNotFound ∧
    get_user_unwatched_shows storeWatched "bob" = .error .userNotFound ∧
    get_user_unwatched_shows storeWatched "dana" = .ok [⟨1, "Foo"⟩] := by
  decide

/-- C9: `list_shows` with `watched=true` is claimed to return the watched
shows annotated with rating and `watched_at`; in the code every joined row
fails `isinstance(result, tuple)` and the else branch reads `result.id`,
an attribute the `Row` does not have, so the request raises
`AttributeError` whenever the user has watched anything, and returns the
empty list otherwise.  (Even the dead tuple branch would leave
`watched_at` unset in the `ShowResponse`.)  Evaluated at the failing
input: "ray" with one watched show. -/
theorem C9_list_watched_fault :
    list_shows storeWatched "ray" (some true) = .error .attributeError ∧
    watched_by storeWatched "ray" ≠ [] ∧
    list_shows storeFresh "ray" (some true) = .ok [] := by
  decide

/-- C7: the rating check of `mark_watched` rejects exactly the ratings
outside `[1, 5]`: any rating outside the interval yields `invalidRating`,
and any rating inside it never does. -/
theorem C7_rating_validation (store : Store) (user : String) (sid : Nat)
    (now : Nat) (r : Int) :
    (¬(1 ≤ r ∧ r ≤ 5) → watch_show store user sid r now = .error .invalidRating) ∧
    ((1 ≤ r ∧ r ≤ 5) → watch_show store user sid r now ≠ .error .invalidRating) := by
  constructor
  · intro h
    simp [watch_show, h]
  · intro h
    rw [watch_show, if_neg (not_not_intro h)]
    cases store.shows.find? (fun s => s.id == sid) with
    | none => simp
    | some sh =>
      cases findWatch store user sid with
      | none => simp
      | some w => simp

/-- C7 witness: the boundary ratings 0, 6 and -1 are rejected and each of
1, 2, 3, 4, 5 passes the rating check. -/
theorem C7_rating_validation_witness :
    watch_show storeFresh "ray" 1 0 9 = .error .invalidRating ∧
    watch_show storeFresh "ray" 1 6 9 = .error .invalidRating ∧
    watch_show storeFresh "ray" 1 (-1) 9 = .error .invalidRating ∧
    watch_show storeFresh "ray" 1 1 9 ≠ .error .invalidRating ∧
    watch_show storeFresh "ray" 1 2 9 ≠ .error .invalidRating ∧
    watch_show storeFresh "ray" 1 3 9 ≠ .error .invalidRating ∧
    watch_show storeFresh "ray" 1 4 9 ≠ .error .invalidRating ∧
    watch_show storeFresh "ray" 1 5 9 ≠ .error .invalidRating :=
  ⟨(C7_rating_validation storeFresh "ray" 1 9 0).1 (by decide),
   (C7_rating_validation storeFresh "ray" 1 9 6).1 (by decide),
   (C7_rating_validation storeFresh "ray" 1 9 (-1)).1 (by decide),
   (C7_rating_validation storeFresh "ray" 1 9 1).2 (by decide),
   (C7_rating_validation storeFresh "ray" 1 9 2).2 (by decide),
   (C7_rating_validation storeFresh "ray" 1 9 3).2 (by decide),
   (C7_rating_validation storeFresh "ray" 1 9 4).2 (by decide),
   (C7_rating_validation storeFresh "ray" 1 9 5).2 (by decide)⟩

/-- C10: the rating check of `mark_watched` runs before the show lookup:
with a rating outside `[1, 5]` the handler answers `invalidRating` even
when no show with the requested id exists, so `showNotFound` is never
produced in that case and no store mutation happens (an error outcome
carries no new store). -/
theorem C10_rating_check_precedes_show_check (store : Store) (user : String)
    (sid : Nat) (r : Int) (now : Nat)
    (hr : ¬(1 ≤ r ∧ r ≤ 5))
    (_hs : store.shows.find? (fun s => s.id == sid) = none) :
    watch_show store user sid r now = .error .invalidRating := by
  simp [watch_show, hr]

/-- C10 witness: rating 7 against the nonexistent show id 9 answers
`invalidRating`, not `showNotFound`. -/
theorem C10_rating_check_precedes_show_check_witness :
    watch_show storeFresh "ray" 9 7 0 = .error .invalidRating :=
  C10_rating_check_precedes_show_check storeFresh "ray" 9 7 0
    (by decide) (by decide)

end TvTracker
